import Mathlib

/-
Verification of the Remote Execution & Parallel Session Orchestrator of
JasmineTool against its specification.

The Python sources embedded here (shallowly, over `List Char` strings):
  - src/jasminetool/ssh_executor.py   (SSHExecutor.execute_command,
    SSHExecutor._execute_with_stream)
  - src/jasminetool/core/SSHServer/project_start.py  (ProjectStarter)
  - src/jasminetool/start.py          (StartManager.create_tmux_session,
    create_tmux_session_remote, start_wandb_agents_remote)
-/

/-! ## Character-level string utilities -/

/-- The single-quote character (ASCII 39). -/
def sqc : Char := Char.ofNat 39

/-- The double-quote character (ASCII 34). -/
def dqc : Char := Char.ofNat 34

/-! ## Shell quoting, from `SSHExecutor.execute_command`

Source (ssh_executor.py, line 53):
  `escaped_command = command.replace("'", "'\"'\"'")`
Each single quote is replaced by the five-character sequence
quote, double-quote, quote, double-quote, quote. -/

/-- Embedding of `command.replace("'", "'\"'\"'")` over the character list. -/
def escapeSq : List Char → List Char
  | [] => []
  | c :: cs =>
    if c = sqc then sqc :: dqc :: sqc :: dqc :: sqc :: escapeSq cs
    else c :: escapeSq cs

/-! ## A POSIX-shell unquoting model

To state the round-trip property of the escaping we model how a POSIX shell
turns a (single- and double-) quoted word back into the literal argument:
outside quotes a quote character opens the corresponding quoting mode, inside
single quotes everything up to the next single quote is literal, inside double
quotes everything up to the next double quote is literal (no expansions are
modelled; the escaped forms we feed in contain no expandable characters
outside quotes).  An unterminated quote yields `none`. -/

inductive QState where
  | outside
  | insingle
  | indouble
deriving DecidableEq, Repr

/-- One-pass shell dequoting state machine. -/
def shUnquoteAux : QState → List Char → Option (List Char)
  | .outside, [] => some []
  | .outside, c :: cs =>
    if c = sqc then shUnquoteAux .insingle cs
    else if c = dqc then shUnquoteAux .indouble cs
    else (shUnquoteAux .outside cs).map (fun r => c :: r)
  | .insingle, [] => none
  | .insingle, c :: cs =>
    if c = sqc then shUnquoteAux .outside cs
    else (shUnquoteAux .insingle cs).map (fun r => c :: r)
  | .indouble, [] => none
  | .indouble, c :: cs =>
    if c = dqc then shUnquoteAux .outside cs
    else (shUnquoteAux .indouble cs).map (fun r => c :: r)

/-- Shell dequoting of a full word, starting outside any quotes. -/
def shUnquote (s : List Char) : Option (List Char) :=
  shUnquoteAux .outside s

theorem dqc_ne_sqc : dqc ≠ sqc := by decide

theorem sqc_ne_dqc : sqc ≠ dqc := by decide

/-- Inside a single-quoted region, the escaped form of `s` followed by the
closing quote dequotes back to exactly `s`. -/
theorem shUnquoteAux_insingle_escape (s : List Char) :
    shUnquoteAux QState.insingle (escapeSq s ++ [sqc]) = some s := by
  induction s with
  | nil =>
    simp [escapeSq, shUnquoteAux]
  | cons c cs ih =>
    by_cases h : c = sqc
    · subst h
      simp [escapeSq, shUnquoteAux, dqc_ne_sqc, sqc_ne_dqc, ih]
    · simp [escapeSq, shUnquoteAux, h, ih]


/-! ## The ssh command line, from `SSHExecutor.execute_command`

Source (ssh_executor.py, lines 50-65): only the `command` argument passes
through the escaping; `self.work_dir` and `self.ssh_host` are interpolated
verbatim:
  `ssh_cmd = f"{ssh_base} {self.ssh_host} 'cd {self.work_dir} && {escaped_command}'"` -/

/-- A fueled decimal rendering of a natural number (Python `str(n)`). -/
def natToStrAux : Nat → Nat → List Char
  | 0, _ => []
  | fuel + 1, n =>
    if n < 10 then [Char.ofNat (48 + n)]
    else natToStrAux fuel (n / 10) ++ [Char.ofNat (48 + n % 10)]

/-- Decimal rendering of a natural number as characters. -/
def natToStr (n : Nat) : List Char := natToStrAux (n + 1) n

/-- The single-quoted argument body handed to ssh when a work directory is
injected: `cd {work_dir} && {escaped_command}` (ssh_executor.py, line 65).
Note that `workDir` is NOT escaped in the source. -/
def remoteScript (workDir command : List Char) : List Char :=
  "cd ".data ++ workDir ++ " && ".data ++ escapeSq command

/-- The full local ssh invocation built by `execute_command` (without
streaming/PTY flags): `ssh -p {port} {host} '{remoteScript}'`. -/
def sshCommand (port : Nat) (host workDir command : List Char) : List Char :=
  "ssh -p ".data ++ natToStr port ++ [' '] ++ host ++ [' '] ++
    (sqc :: remoteScript workDir command ++ [sqc])

/-! ## Device-id derivation

From `ProjectStarter._get_gpu_ids` (core/SSHServer/project_start.py, lines
54-66) and the gpu-config parsing of `StartManager.create_tmux_session`
(start.py, lines 370-387). -/

/-- Python `s.split(sep)` for a one-character separator: splits on every
occurrence, keeping empty pieces (so `"".split(",") == [""]`). -/
def splitOnChar (sep : Char) : List Char → List (List Char)
  | [] => [[]]
  | c :: cs =>
    if c = sep then [] :: splitOnChar sep cs
    else
      match splitOnChar sep cs with
      | [] => [[c]]
      | t :: ts => (c :: t) :: ts

/-- Python `s.strip()`: drop leading and trailing whitespace. -/
def pyStrip (s : List Char) : List Char :=
  ((s.dropWhile Char.isWhitespace).reverse.dropWhile Char.isWhitespace).reverse

/-- Embedding of `ProjectStarter._get_gpu_ids(gpu_config, has_gpu)`.
`detectCount` stands for the value `self._detect_gpu_count()` would return;
the source only consults it in the `has_gpu` branch of the `"0"` sentinel.

Source:
```
if gpu_config == "0":
    if has_gpu:
        gpu_count = self._detect_gpu_count()
        gpu_ids = [str(i) for i in range(gpu_count)] if gpu_count > 0 else ["0"]
        ...
        return gpu_ids
    else:
        ...
        return ["0"]
else:
    return [g.strip() for g in gpu_config.split(",")]
``` -/
def getGpuIds (gpuConfig : List Char) (hasGpu : Bool) (detectCount : Nat) :
    List (List Char) :=
  if gpuConfig = ['0'] then
    if hasGpu then
      if detectCount > 0 then (List.range detectCount).map natToStr else [['0']]
    else [['0']]
  else (splitOnChar ',' gpuConfig).map pyStrip

/-- All-digit parse helper for Python `int`: a non-empty digit string. -/
def digitsToNat : List Char → Option Nat
  | [] => none
  | [c] => if c.isDigit then some (c.toNat - 48) else none
  | c :: cs =>
    if c.isDigit then
      (digitsToNat cs).map (fun n => (c.toNat - 48) * 10 ^ cs.length + n)
    else none

/-- Python `int(x)` on a stripped token: an optional sign followed by decimal
digits (underscore separators of Python's `int` are not modelled; no claim
input uses them).  `none` models the `ValueError` that a non-numeric token
raises. -/
def parsePyInt (s : List Char) : Option Int :=
  match pyStrip s with
  | '-' :: ds => (digitsToNat ds).map (fun n => -(n : Int))
  | '+' :: ds => (digitsToNat ds).map (fun n => (n : Int))
  | ds => (digitsToNat ds).map (fun n => (n : Int))

/-- Embedding of the explicit branch of `StartManager.create_tmux_session`
(start.py, line 387): `gpu_ids = [int(x.strip()) for x in gpu_config.split(",")]`.
`none` models the `ValueError` escaping from the list comprehension. -/
def gpuIdsLocal (gpuConfig : List Char) : Option (List Int) :=
  (splitOnChar ',' gpuConfig).mapM (fun x => parsePyInt (pyStrip x))

/-! ## Placement table

The nested loop of `ProjectStarter.run` (project_start.py, lines 84-103) and
`StartManager.create_tmux_session` (start.py, lines 415-438):
`for gpu_id in gpu_ids: for i in range(num_processes): ...`.
Panes are created in that order, so the pane index of an entry is its
position in the flattened sequence.  The device-selector variable
`CUDA_VISIBLE_DEVICES` is put into the dispatched command only when
`has_gpu` holds (project_start.py, lines 93-96). -/

/-- The flattened device sequence of the nested loop: each device id of
`gpuIds`, in order, repeated once per process (`numProcesses` inner
iterations). -/
def paneCore (gpuIds : List (List Char)) (numProcesses : Nat) :
    List (List Char) :=
  gpuIds.flatMap (fun g => (List.range numProcesses).map (fun _ => g))

/-- The placement table: one entry per pane, carrying the device selector
that the dispatched command will receive (`some` device id when `has_gpu`,
`none` in CPU-only mode) and the pane index (creation order). -/
def paneTable (gpuIds : List (List Char)) (hasGpu : Bool)
    (numProcesses : Nat) : List (Option (List Char) × Nat) :=
  (paneCore gpuIds numProcesses).enum.map
    (fun x => (if hasGpu then some x.2 else none, x.1))

/-! ## Session orchestration, from `ProjectStarter.run`

project_start.py, lines 68-112.  The channel is modelled as a predicate
saying whether a dispatched command succeeds (`result.ok`).  The source
checks the result of the `tmux new-session` command only; all later
`conn.run(..., warn=True)` results are discarded. -/

/-- `ProjectStarter._generate_session_name` (lines 37-40): the part of the
sweep id after the last `/`, an underscore, and the `%m%d%H%M` timestamp
(modelled as an input string). -/
def genSessionName (sweepId timestamp : List Char) : List Char :=
  (((splitOnChar '/' sweepId).getLast?).getD sweepId) ++ "_".data ++ timestamp

/-- `tmux new-session -d -s {session_name}` (line 76). -/
def newSessionCmd (name : List Char) : List Char :=
  "tmux new-session -d -s ".data ++ name

/-- `tmux split-window -t {session_name}` (line 88). -/
def splitWindowCmd (name : List Char) : List Char :=
  "tmux split-window -t ".data ++ name

/-- `tmux select-layout -t {session_name} tiled` (line 89). -/
def selectLayoutCmd (name : List Char) : List Char :=
  "tmux select-layout -t ".data ++ name ++ " tiled".data

/-- `tmux send-keys -t {session_name} "{final_cmd}" C-m` (line 99). -/
def sendKeysCmd (name finalCmd : List Char) : List Char :=
  "tmux send-keys -t ".data ++ name ++ " \"".data ++ finalCmd ++ "\" C-m".data

/-- `ProjectStarter._with_env` (lines 16-22): prefix the command with the
exports of the configured environment variables (insertion order) and the
PATH extension. -/
def withEnv (envVars : List (List Char × List Char)) (cmd : List Char) :
    List Char :=
  (envVars.foldl
    (fun acc kv =>
      acc ++ "export ".data ++ kv.1 ++ "=\"".data ++ kv.2 ++ "\" && ".data)
    []) ++
  "export PATH=\"$HOME/.local/bin:$HOME/.cargo/bin:$HOME/.x-cmd.root/bin:$PATH\" && ".data
    ++ cmd

/-- The per-pane command of `ProjectStarter.run` (lines 91-96): change to the
work directory, export the wandb key, then (only when `has_gpu`) set
`CUDA_VISIBLE_DEVICES` to the pane's device id, and run the agent through the
command runner. -/
def fullCmd (workDir runner : List Char) (hasGpu : Bool)
    (gpuId sweepId wandbKey : List Char) : List Char :=
  "cd ".data ++ workDir ++ " && export WANDB_API_KEY=".data ++ wandbKey ++
    " && ".data ++
    (if hasGpu then "CUDA_VISIBLE_DEVICES=".data ++ gpuId ++ [' '] else []) ++
    runner ++ [' '] ++ "wandb agent ".data ++ sweepId

/-- The fully composed string typed into a pane (line 98):
`self._with_env(full_cmd)`. -/
def paneFinalCmd (workDir runner : List Char)
    (envVars : List (List Char × List Char)) (hasGpu : Bool)
    (gpuId sweepId wandbKey : List Char) : List Char :=
  withEnv envVars (fullCmd workDir runner hasGpu gpuId sweepId wandbKey)

/-- The channel commands issued for the panes, in order (lines 84-103): every
pane but the first is preceded by a split and a re-tile; each pane then gets a
send-keys dispatch.  The `first_pane` flag of the source is true exactly for
the first iteration of the flattened loop. -/
def paneTrace (name workDir runner : List Char)
    (envVars : List (List Char × List Char)) (hasGpu : Bool)
    (sweepId wandbKey : List Char) (gpuIds : List (List Char))
    (numProcesses : Nat) : List (List Char) :=
  (paneCore gpuIds numProcesses).enum.flatMap
    (fun x =>
      (if x.1 = 0 then [] else [splitWindowCmd name, selectLayoutCmd name]) ++
      [sendKeysCmd name
        (paneFinalCmd workDir runner envVars hasGpu x.2 sweepId wandbKey)])

/-- Embedding of `ProjectStarter.run`.  `chan` tells, for each command string
issued over the connection, whether it succeeds (`result.ok`).  The return
value is the boolean the source returns, paired with the trace of commands
issued over the channel (gpu discovery is modelled by the `hasGpu` /
`detectCount` inputs).  The source aborts (returning `False`) when session
creation fails and otherwise runs the full pane loop ignoring the per-pane
results (`warn=True`, results discarded), finally returning `True`. -/
def runStarter (workDir runner : List Char)
    (envVars : List (List Char × List Char)) (hasGpu : Bool)
    (detectCount : Nat) (gpuConfig : List Char) (numProcesses : Nat)
    (sweepId wandbKey timestamp : List Char) (chan : List Char → Bool) :
    Bool × List (List Char) :=
  let gpuIds := getGpuIds gpuConfig hasGpu detectCount
  let name := genSessionName sweepId timestamp
  let create := newSessionCmd name
  if chan create then
    (true,
      create ::
        paneTrace name workDir runner envVars hasGpu sweepId wandbKey gpuIds
          numProcesses)
  else (false, [create])

/-! ## Structural facts about the placement table -/

theorem paneCore_length (g : List (List Char)) (P : Nat) :
    (paneCore g P).length = g.length * P := by
  unfold paneCore
  rw [List.length_flatMap]
  have h1 : (List.length ∘ fun c : List Char => (List.range P).map (fun _ => c))
      = fun _ => P := by
    funext c; simp
  rw [h1, List.map_const', List.sum_replicate, smul_eq_mul, Nat.mul_comm]

theorem paneCore_singleton (c : List Char) (P : Nat) :
    paneCore [c] P = List.replicate P c := by
  simp [paneCore, List.map_const']

theorem paneCore_ofMap (K P : Nat) (f : Nat → List Char) :
    paneCore ((List.range K).map f) P
      = (List.range K).flatMap (fun d => List.replicate P (f d)) := by
  unfold paneCore
  rw [List.flatMap_map]
  simp [Function.comp, List.map_const']

theorem paneTable_length (g : List (List Char)) (b : Bool) (P : Nat) :
    (paneTable g b P).length = g.length * P := by
  simp [paneTable, paneCore_length]

theorem paneTable_fst (g : List (List Char)) (b : Bool) (P : Nat) :
    (paneTable g b P).map Prod.fst
      = (paneCore g P).map (fun c => if b then some c else none) := by
  unfold paneTable
  rw [List.map_map]
  have hcomp :
      (Prod.fst ∘ fun x : Nat × List Char => ((if b then some x.2 else none), x.1))
        = (fun c => if b then some c else none) ∘ Prod.snd := rfl
  rw [hcomp, ← List.map_map, List.enum_map_snd]

theorem paneTable_snd (g : List (List Char)) (b : Bool) (P : Nat) :
    (paneTable g b P).map Prod.snd = List.range (g.length * P) := by
  unfold paneTable
  rw [List.map_map]
  have hcomp :
      (Prod.snd ∘ fun x : Nat × List Char => ((if b then some x.2 else none), x.1))
        = Prod.fst := rfl
  rw [hcomp, List.enum_map_fst, paneCore_length]

/-! ## Streaming interruption, from `SSHExecutor._execute_with_stream`

ssh_executor.py, lines 142-154.  On `KeyboardInterrupt` the source runs
`process.terminate()`, then `process.wait(timeout=5)`, and `process.kill()`
when that wait times out, and returns a `CompletedProcess` with return code
`-1`, the stdout accumulated so far, and the fixed interruption note as
stderr (the stderr lines accumulated so far are discarded). -/

/-- Model of `subprocess.CompletedProcess` as returned by the executor. -/
structure CompletedProcess where
  args : List Char
  returncode : Int
  stdout : List Char
  stderr : List Char
deriving DecidableEq, Repr

/-- The process-lifecycle steps the interruption handler performs. -/
inductive ProcAction where
  | terminate
  | waitGrace (seconds : Nat)
  | kill
deriving DecidableEq, Repr

/-- The steps of the `except KeyboardInterrupt` handler:
`terminate()`, `wait(timeout=5)`, and — only when the wait raises
`TimeoutExpired`, i.e. the process did not exit within the grace period —
`kill()`. -/
def interruptActions (exitedWithinGrace : Bool) : List ProcAction :=
  [ProcAction.terminate, ProcAction.waitGrace 5] ++
    (if exitedWithinGrace then [] else [ProcAction.kill])

/-- The result the handler returns: return code `-1`, the joined stdout
lines captured so far, and the fixed interruption note as stderr. -/
def interruptResult (sshCmd : List Char) (outputLines : List (List Char)) :
    CompletedProcess :=
  { args := sshCmd
    returncode := -1
    stdout := outputLines.flatten
    stderr := "Command interrupted by user".data }

/-! ## Remote session script and log lines, from start.py

`create_tmux_session_remote` (start.py, lines 569-642) composes one shell
script (an f-string) and passes it to `SSHExecutor.execute_command` with
`stream_output=True`; with `verbose` set, `execute_command` first prints
`f"🔧 Executing on {self.ssh_host}: {command}"` (line 68) — the full script,
wandb key included.  `start_wandb_agents_remote` prints a masked form of the
key (line 782). -/

/-- The `gpu_setup` fragment (start.py, lines 583-593), sentinel branch
verbatim (including the stray double quote after the `sed`) and explicit
branch with the configured ids interpolated. -/
def gpuSetup (gpuConfig : List Char) : List Char :=
  if gpuConfig = ['0'] then
    "\nGPU_COUNT=$(nvidia-smi --query-gpu=count --format=csv,noheader | wc -l)\nGPU_IDS=$(seq 0 $((GPU_COUNT-1)) | tr \"\\n\" \",\" | sed \"s/,$//\")\"\necho \"Detected GPUs: $GPU_IDS\"\n".data
  else
    "\nGPU_IDS=\"".data ++ gpuConfig ++
      "\"\necho \"Using configured GPUs: $GPU_IDS\"\n".data

/-- Literal segment of the setup script before `{sweep_id}`. -/
def scriptSeg1 : List Char :=
  "\nset -e\nSWEEP_ID_SHORT=$(echo \"".data

/-- Literal segment between `{sweep_id}` and `{gpu_setup}`. -/
def scriptSeg2 : List Char :=
  "\" | rev | cut -d\"/\" -f1 | rev)\nCURRENT_TIME=$(date +\"%m%d%H%M\")\nSESSION_NAME=\"$\x7bSWEEP_ID_SHORT\x7d_$\x7bCURRENT_TIME\x7d\"\necho \"Session name: $SESSION_NAME\"\n\n".data

/-- Literal segment between `{gpu_setup}` and `{num_processes}`. -/
def scriptSeg3 : List Char :=
  "\n\n# Create tmux session\necho \"🔧 Creating tmux session...\"\ntmux new-session -d -s \"$SESSION_NAME\"\n\n# Add processes for each GPU\necho \"🔧 Adding processes to tmux session...\"\nFIRST_PANE=true\nIFS=\",\" read -ra GPUS <<< \"$GPU_IDS\"\nfor gpu_id in \"$\x7bGPUS[@]\x7d\"; do\n    for ((i=0; i<".data

/-- Literal segment between `{num_processes}` and the second `{sweep_id}`. -/
def scriptSeg4 : List Char :=
  "; i++)); do\n        if [ \"$FIRST_PANE\" = true ]; then\n            FIRST_PANE=false\n        else\n            tmux split-window -t \"$SESSION_NAME\"\n            tmux select-layout -t \"$SESSION_NAME\" tiled\n        fi\n        \n        WANDB_CMD=\"wandb agent ".data

/-- Literal segment between the second `{sweep_id}` and `{wandb_key}`. -/
def scriptSeg5 : List Char :=
  "\"\n        FULL_CMD=\"export WANDB_API_KEY=".data

/-- Literal segment between `{wandb_key}` and `{command_runner}`. -/
def scriptSeg6 : List Char :=
  " && CUDA_VISIBLE_DEVICES=$gpu_id ".data

/-- Literal tail of the setup script after `{command_runner}`. -/
def scriptSeg7 : List Char :=
  " $WANDB_CMD\"\n        tmux send-keys -t \"$SESSION_NAME\" \"$FULL_CMD\" C-m\n        \n        echo \"✅ Started process $((i+1)) on GPU $gpu_id\"\n    done\ndone\n\necho \"🎉 All processes started successfully!\"\necho \"🚀 All processes started in tmux session: $SESSION_NAME\"\necho \"   View session: tmux attach-session -t $SESSION_NAME\"\necho \"   Kill session: tmux kill-session -t $SESSION_NAME\"\n".data

/-- The `setup_script` f-string of `create_tmux_session_remote` (start.py,
lines 596-634), with its interpolations made explicit. -/
def setupScript (sweepId gpuConfig : List Char) (numProcesses : Nat)
    (wandbKey commandRunner : List Char) : List Char :=
  scriptSeg1 ++ sweepId ++ scriptSeg2 ++ gpuSetup gpuConfig ++ scriptSeg3 ++
    natToStr numProcesses ++ scriptSeg4 ++ sweepId ++ scriptSeg5 ++ wandbKey ++
    scriptSeg6 ++ commandRunner ++ scriptSeg7

/-- The verbose progress line of `SSHExecutor.execute_command` (line 68):
`f"🔧 Executing on {self.ssh_host}: {command}"`, printed before dispatch. -/
def verboseEchoLine (host command : List Char) : List Char :=
  "🔧 Executing on ".data ++ host ++ ": ".data ++ command

/-- The masked-key progress line of `start_wandb_agents_remote` (line 782):
`'***' + wandb_key[-4:]` when the key is longer than four characters. -/
def maskKeyLine (wandbKey : List Char) : List Char :=
  "🔑 WANDB key: ".data ++
    (if 4 < wandbKey.length then
      "***".data ++ wandbKey.drop (wandbKey.length - 4)
    else "***".data)

/-! ## Claim theorems -/

/-- Claim C8: for every command string containing one or more single quotes,
the escaped form (each single quote replaced by the close/escaped/reopen
sequence), wrapped in single quotes and interpreted by a POSIX shell,
reproduces the original string byte-for-byte as the literal argument. -/
theorem c8_quoting_round_trip (s : List Char) (_hs : sqc ∈ s) :
    shUnquote (sqc :: escapeSq s ++ [sqc]) = some s := by
  unfold shUnquote
  simp [shUnquoteAux, shUnquoteAux_insingle_escape]

/-- Witness for C8 at the concrete command `a'b`. -/
theorem c8_quoting_round_trip_witness :
    sqc ∈ ['a', sqc, 'b'] ∧
      shUnquote (sqc :: escapeSq ['a', sqc, 'b'] ++ [sqc])
        = some ['a', sqc, 'b'] :=
  ⟨by decide, c8_quoting_round_trip ['a', sqc, 'b'] (by decide)⟩

/-- Claim C2 (refuted; code bug): `execute_command` passes only its `command`
parameter through the escaping; the work directory is interpolated verbatim
into the single-quoted region (ssh_executor.py, line 65).  At the concrete
work directory `w'x` the quoted word no longer dequotes to any literal at all
(the intended quoting is terminated early and the final quote is left
unbalanced), while the same command under a quote-free work directory
round-trips; the third conjunct exhibits the verbatim, unescaped
interpolation of the work directory. -/
theorem c2_workdir_not_escaped :
    shUnquote
        (sqc :: remoteScript ("w".data ++ [sqc] ++ "x".data) "ls".data ++ [sqc])
      = none
  ∧ shUnquote (sqc :: remoteScript "w".data "ls".data ++ [sqc])
      = some "cd w && ls".data
  ∧ remoteScript ("w".data ++ [sqc] ++ "x".data) "ls".data
      = "cd w".data ++ [sqc] ++ "x && ls".data := by
  refine ⟨by decide, by decide, by decide⟩

/-- Claim C9 (refuted; code bug): with `verbose` set, `execute_command`
echoes the full command it is about to run (start.py hands it the whole setup
script, which embeds `export WANDB_API_KEY={wandb_key}`), so a log line
contains the secret token in full, unmasked, for every choice of inputs. -/
theorem c9_token_echoed_in_full (host sweepId gpuConfig : List Char)
    (numProcesses : Nat) (wandbKey commandRunner : List Char) :
    ∃ a b,
      verboseEchoLine host
          (setupScript sweepId gpuConfig numProcesses wandbKey commandRunner)
        = a ++ wandbKey ++ b := by
  refine ⟨"🔧 Executing on ".data ++ host ++ ": ".data ++ scriptSeg1 ++ sweepId
      ++ scriptSeg2 ++ gpuSetup gpuConfig ++ scriptSeg3
      ++ natToStr numProcesses ++ scriptSeg4 ++ sweepId ++ scriptSeg5,
    scriptSeg6 ++ commandRunner ++ scriptSeg7, ?_⟩
  simp [verboseEchoLine, setupScript, List.append_assoc]

/-- Claim C6: on caller interruption the streaming executor terminates the
process, waits a five-second grace period, kills it when the wait expires,
and returns a result with the distinguished exit code `-1`, the fixed
human-readable interruption note as error text, and the stdout captured so
far preserved. -/
theorem c6_interrupt_result (sshCmd : List Char)
    (outputLines : List (List Char)) :
    (interruptResult sshCmd outputLines).returncode = -1
  ∧ (interruptResult sshCmd outputLines).returncode < 0
  ∧ (interruptResult sshCmd outputLines).stderr
      = "Command interrupted by user".data
  ∧ (interruptResult sshCmd outputLines).stdout = outputLines.flatten
  ∧ interruptActions true = [ProcAction.terminate, ProcAction.waitGrace 5]
  ∧ interruptActions false
      = [ProcAction.terminate, ProcAction.waitGrace 5, ProcAction.kill] :=
  ⟨rfl, by simp [interruptResult], rfl, rfl, rfl, rfl⟩

/-- Every entry of the placement table carries, as its device selector, some
element of the flattened device sequence when `has_gpu` holds, and `none`
otherwise. -/
theorem paneTable_mem (g : List (List Char)) (b : Bool) (P : Nat)
    (e : Option (List Char) × Nat) (he : e ∈ paneTable g b P) :
    ∃ c ∈ paneCore g P, e.1 = if b then some c else none := by
  unfold paneTable at he
  obtain ⟨x, hx, rfl⟩ := List.mem_map.1 he
  have hm : x.2 ∈ (paneCore g P).enum.map Prod.snd :=
    List.mem_map_of_mem Prod.snd hx
  rw [List.enum_map_snd] at hm
  exact ⟨x.2, hm, rfl⟩

/-- Claim C1 (refuted): with the `"0"` sentinel, the device tool present but
reporting zero devices, and one process per device, the placement produced by
`_get_gpu_ids` + the dispatch loop has its (single) entry carrying device
selector `"0"` — the claim's "every entry has no device id assigned" fails. -/
theorem c1_cex_zero_devices_selector_set :
    paneTable (getGpuIds ['0'] true 0) true 1 = [(some ['0'], 0)]
  ∧ ¬ (∀ e ∈ paneTable (getGpuIds ['0'] true 0) true 1, e.1 = none) := by
  refine ⟨by decide, by decide⟩

/-- Claim C1 as amended: with the `"0"` sentinel and
`processes_per_device = P > 0`, (a) when the device tool is absent
(`has_gpu = false`) the placement has exactly `P` entries and every entry has
no device selector (CPU-only dispatch); (b) when the tool is present but
reports zero devices the placement still has `P` entries but every entry has
the device selector set to `"0"` (the source defaults to GPU 0). -/
theorem c1_amended_cpu_fallback (P detectCount : Nat) (_hP : 0 < P) :
    ((paneTable (getGpuIds ['0'] false detectCount) false P).length = P
      ∧ ∀ e ∈ paneTable (getGpuIds ['0'] false detectCount) false P,
          e.1 = none)
  ∧ ((paneTable (getGpuIds ['0'] true 0) true P).length = P
      ∧ ∀ e ∈ paneTable (getGpuIds ['0'] true 0) true P,
          e.1 = some ['0']) := by
  have hg1 : getGpuIds ['0'] false detectCount = [['0']] := by
    simp [getGpuIds]
  have hg2 : getGpuIds ['0'] true 0 = [['0']] := by
    simp [getGpuIds]
  refine ⟨⟨?_, ?_⟩, ⟨?_, ?_⟩⟩
  · rw [hg1, paneTable_length]; simp
  · intro e he
    obtain ⟨c, _, h⟩ := paneTable_mem _ _ _ _ he
    simpa using h
  · rw [hg2, paneTable_length]; simp
  · intro e he
    obtain ⟨c, hc, h⟩ := paneTable_mem _ _ _ _ he
    rw [hg2, paneCore_singleton] at hc
    rw [List.eq_of_mem_replicate hc] at h
    simpa using h

/-- Witness for C1 (amended) at `P = 1`, `detectCount = 0`. -/
theorem c1_amended_cpu_fallback_witness :
    0 < 1
  ∧ (((paneTable (getGpuIds ['0'] false 0) false 1).length = 1
      ∧ ∀ e ∈ paneTable (getGpuIds ['0'] false 0) false 1, e.1 = none)
  ∧ ((paneTable (getGpuIds ['0'] true 0) true 1).length = 1
      ∧ ∀ e ∈ paneTable (getGpuIds ['0'] true 0) true 1,
          e.1 = some ['0'])) :=
  ⟨by decide, c1_amended_cpu_fallback 1 0 (by decide)⟩

/-- Claim C4: with the `"0"` sentinel, the tool present, `K > 0` discovered
devices and `P > 0` processes per device, the placement has exactly `K * P`
entries; in dispatch order the device selectors are `"0" .. str(K-1)`, each
repeated `P` times consecutively (device-major, process-minor), and the pane
indices form the dense sequence `0 .. K*P-1`. -/
theorem c4_auto_placement (K P : Nat) (hK : 0 < K) (_hP : 0 < P) :
    (paneTable (getGpuIds ['0'] true K) true P).length = K * P
  ∧ (paneTable (getGpuIds ['0'] true K) true P).map Prod.fst
      = (List.range K).flatMap (fun d => List.replicate P (some (natToStr d)))
  ∧ (paneTable (getGpuIds ['0'] true K) true P).map Prod.snd
      = List.range (K * P) := by
  have hg : getGpuIds ['0'] true K = (List.range K).map natToStr := by
    simp [getGpuIds, hK]
  refine ⟨?_, ?_, ?_⟩
  · rw [hg, paneTable_length]; simp
  · rw [hg, paneTable_fst, paneCore_ofMap, List.map_flatMap]
    simp
  · rw [hg, paneTable_snd]; simp

/-- Witness for C4 at the claim's scenario `K = 2`, `P = 2`, checking in
addition that the table is exactly
`[(dev "0", pane 0), (dev "0", pane 1), (dev "1", pane 2), (dev "1", pane 3)]`. -/
theorem c4_auto_placement_witness :
    (0 < 2 ∧ 0 < 2
  ∧ ((paneTable (getGpuIds ['0'] true 2) true 2).length = 2 * 2
  ∧ (paneTable (getGpuIds ['0'] true 2) true 2).map Prod.fst
      = (List.range 2).flatMap (fun d => List.replicate 2 (some (natToStr d)))
  ∧ (paneTable (getGpuIds ['0'] true 2) true 2).map Prod.snd
      = List.range (2 * 2)))
  ∧ paneTable (getGpuIds ['0'] true 2) true 2
      = [(some ['0'], 0), (some ['0'], 1), (some ['1'], 2), (some ['1'], 3)] :=
  ⟨⟨by decide, by decide, c4_auto_placement 2 2 (by decide) (by decide)⟩,
    by decide⟩

/-- Claim C5 (refuted): the local implementation
(`StartManager.create_tmux_session`, start.py line 387) parses every explicit
token with `int(...)`: the non-numeric explicit config `"x"` raises
(`none` here) instead of yielding the trimmed token list `["x"]` that the
SSH-server implementation produces, and even a numeric config yields a list
of integers, not strings. -/
theorem c5_cex_local_int_parse :
    gpuIdsLocal "x".data = none
  ∧ getGpuIds "x".data true 4 = ["x".data]
  ∧ getGpuIds "x".data false 0 = ["x".data]
  ∧ gpuIdsLocal "2, 5,7".data = some [2, 5, 7] := by
  refine ⟨by decide, by decide, by decide, by decide⟩

/-- Claim C5 as amended: in the SSH-server implementation
(`ProjectStarter._get_gpu_ids`), every explicit (non-sentinel) device
configuration yields exactly the comma-split tokens with surrounding
whitespace trimmed, in order, as strings, and neither the tool's presence nor
the discovered count affects the result; the local implementation instead
parses the trimmed tokens as integers, so a non-numeric token is an error. -/
theorem c5_explicit_config (cfg : List Char) (hasGpu1 hasGpu2 : Bool)
    (d1 d2 : Nat) (h : cfg ≠ ['0']) :
    getGpuIds cfg hasGpu1 d1 = (splitOnChar ',' cfg).map pyStrip
  ∧ getGpuIds cfg hasGpu1 d1 = getGpuIds cfg hasGpu2 d2 := by
  constructor <;> simp [getGpuIds, h]

/-- Witness for C5 (amended) at the claim's example `"2, 5,7"`. -/
theorem c5_explicit_config_witness :
    "2, 5,7".data ≠ ['0']
  ∧ getGpuIds "2, 5,7".data true 9
      = (splitOnChar ',' "2, 5,7".data).map pyStrip
  ∧ (splitOnChar ',' "2, 5,7".data).map pyStrip
      = ["2".data, "5".data, "7".data] :=
  ⟨by decide,
    (c5_explicit_config "2, 5,7".data true false 9 0 (by decide)).1,
    by decide⟩

/-- The session-creation command is never equal to any pane-split command
(the two differ in their fixed prefixes). -/
theorem newSession_ne_split (n m : List Char) :
    newSessionCmd n ≠ splitWindowCmd m := by
  intro h
  unfold newSessionCmd splitWindowCmd at h
  have h10 : ("tmux new-session -d -s ".data ++ n).take 10
      = ("tmux split-window -t ".data ++ m).take 10 := by rw [h]
  rw [List.take_append_of_le_length (by decide),
    List.take_append_of_le_length (by decide)] at h10
  exact absurd h10 (by decide)

/-- The session-creation command is never equal to any send-keys command. -/
theorem newSession_ne_send (n m fc : List Char) :
    newSessionCmd n ≠ sendKeysCmd m fc := by
  intro h
  unfold newSessionCmd sendKeysCmd at h
  have h10 : ("tmux new-session -d -s ".data ++ n).take 10
      = ("tmux send-keys -t ".data ++ (m ++ (" \"".data ++ (fc ++ "\" C-m".data)))).take 10 := by
    rw [h]; simp [List.append_assoc]
  rw [List.take_append_of_le_length (by decide),
    List.take_append_of_le_length (by decide)] at h10
  exact absurd h10 (by decide)

/-- Claim C7: when the session-creation command fails, `ProjectStarter.run`
aborts with a fatal error (`False` is returned) after issuing only the
session-creation command: the channel sees no pane-split and no send-keys
command. -/
theorem c7_session_failure_aborts (workDir runner : List Char)
    (envVars : List (List Char × List Char)) (hasGpu : Bool)
    (detectCount : Nat) (gpuConfig : List Char) (numProcesses : Nat)
    (sweepId wandbKey timestamp : List Char) (chan : List Char → Bool)
    (h : chan (newSessionCmd (genSessionName sweepId timestamp)) = false) :
    runStarter workDir runner envVars hasGpu detectCount gpuConfig
        numProcesses sweepId wandbKey timestamp chan
      = (false, [newSessionCmd (genSessionName sweepId timestamp)])
  ∧ ∀ c ∈ (runStarter workDir runner envVars hasGpu detectCount gpuConfig
        numProcesses sweepId wandbKey timestamp chan).2,
      (∀ m, c ≠ splitWindowCmd m) ∧ ∀ m fc, c ≠ sendKeysCmd m fc := by
  have hr : runStarter workDir runner envVars hasGpu detectCount gpuConfig
      numProcesses sweepId wandbKey timestamp chan
      = (false, [newSessionCmd (genSessionName sweepId timestamp)]) := by
    simp [runStarter, h]
  refine ⟨hr, ?_⟩
  rw [hr]
  intro c hc
  rw [List.mem_singleton] at hc
  subst hc
  exact ⟨fun m => newSession_ne_split _ m, fun m fc => newSession_ne_send _ m fc⟩

/-- Witness for C7 with a channel that fails every command. -/
theorem c7_session_failure_aborts_witness :
    (fun _ : List Char => false) (newSessionCmd (genSessionName "s".data "t".data)) = false
  ∧ (runStarter "w".data "r".data [] false 0 ['0'] 1 "s".data "k".data
        "t".data (fun _ => false)
      = (false, [newSessionCmd (genSessionName "s".data "t".data)])
  ∧ ∀ c ∈ (runStarter "w".data "r".data [] false 0 ['0'] 1 "s".data "k".data
        "t".data (fun _ => false)).2,
      (∀ m, c ≠ splitWindowCmd m) ∧ ∀ m fc, c ≠ sendKeysCmd m fc) :=
  ⟨rfl,
    c7_session_failure_aborts "w".data "r".data [] false 0 ['0'] 1 "s".data
      "k".data "t".data (fun _ => false) rfl⟩

/-- Claim C3 (refuted): a channel on which the session creation succeeds but
a pane dispatch fails.  The dispatched send-keys command is issued (it is in
the trace) and fails on this channel, yet `ProjectStarter.run` still reports
plain, unqualified success (`True`): it keeps no record of the failed pane. -/
theorem c3_cex_dispatch_failure_ignored :
    (runStarter "w".data "r".data [] false 0 ['0'] 1 "s".data "k".data
        "t".data
        (fun c => c == newSessionCmd (genSessionName "s".data "t".data))).1
      = true
  ∧ sendKeysCmd (genSessionName "s".data "t".data)
        (paneFinalCmd "w".data "r".data [] false ['0'] "s".data "k".data)
      ∈ (runStarter "w".data "r".data [] false 0 ['0'] 1 "s".data "k".data
          "t".data
          (fun c => c == newSessionCmd (genSessionName "s".data "t".data))).2
  ∧ (fun c => c == newSessionCmd (genSessionName "s".data "t".data))
        (sendKeysCmd (genSessionName "s".data "t".data)
          (paneFinalCmd "w".data "r".data [] false ['0'] "s".data "k".data))
      = false := by
  refine ⟨by decide, by decide, by decide⟩

/-- Claim C3 as amended: once the session-creation command succeeds,
`ProjectStarter.run` issues the full pane sequence and returns unqualified
success, whatever the individual dispatch commands' outcomes: per-pane
results are discarded (`warn=True`), no failed pane index is recorded, and
the return value carries no degradation information. -/
theorem c3_amended_failures_ignored (workDir runner : List Char)
    (envVars : List (List Char × List Char)) (hasGpu : Bool)
    (detectCount : Nat) (gpuConfig : List Char) (numProcesses : Nat)
    (sweepId wandbKey timestamp : List Char) (chan : List Char → Bool)
    (h : chan (newSessionCmd (genSessionName sweepId timestamp)) = true) :
    runStarter workDir runner envVars hasGpu detectCount gpuConfig
        numProcesses sweepId wandbKey timestamp chan
      = (true,
          newSessionCmd (genSessionName sweepId timestamp)
            :: paneTrace (genSessionName sweepId timestamp) workDir runner
                 envVars hasGpu sweepId wandbKey
                 (getGpuIds gpuConfig hasGpu detectCount) numProcesses) := by
  simp [runStarter, h]

/-- Witness for C3 (amended) with an all-success channel. -/
theorem c3_amended_failures_ignored_witness :
    (fun _ : List Char => true) (newSessionCmd (genSessionName "s".data "t".data)) = true
  ∧ runStarter "w".data "r".data [] false 0 ['0'] 1 "s".data "k".data
        "t".data (fun _ => true)
      = (true,
          newSessionCmd (genSessionName "s".data "t".data)
            :: paneTrace (genSessionName "s".data "t".data) "w".data "r".data
                 [] false "s".data "k".data (getGpuIds ['0'] false 0) 1) :=
  ⟨rfl,
    c3_amended_failures_ignored "w".data "r".data [] false 0 ['0'] 1 "s".data
      "k".data "t".data (fun _ => true) rfl⟩

/-- With zero processes per device the flattened device sequence is empty. -/
theorem paneCore_zero (g : List (List Char)) : paneCore g 0 = [] := by
  induction g with
  | nil => rfl
  | cons a l _ih => simp [paneCore]

/-- Claim C10: with `processes_per_device = 0` the placement table is empty
and `ProjectStarter.run` treats the call as a no-op success: it issues the
session-creation command, issues zero pane-split and zero send-keys
commands (the trace is exactly the creation command), and returns success
with zero dispatched panes. -/
theorem c10_zero_processes_noop (workDir runner : List Char)
    (envVars : List (List Char × List Char)) (hasGpu : Bool)
    (detectCount : Nat) (gpuConfig : List Char)
    (sweepId wandbKey timestamp : List Char) (chan : List Char → Bool)
    (h : chan (newSessionCmd (genSessionName sweepId timestamp)) = true) :
    paneTable (getGpuIds gpuConfig hasGpu detectCount) hasGpu 0 = []
  ∧ runStarter workDir runner envVars hasGpu detectCount gpuConfig 0
        sweepId wandbKey timestamp chan
      = (true, [newSessionCmd (genSessionName sweepId timestamp)]) := by
  constructor
  · simp [paneTable, paneCore_zero]
  · simp [runStarter, h, paneTrace, paneCore_zero]

/-- Witness for C10 with an all-success channel. -/
theorem c10_zero_processes_noop_witness :
    (fun _ : List Char => true) (newSessionCmd (genSessionName "s".data "t".data)) = true
  ∧ (paneTable (getGpuIds ['0'] false 0) false 0 = []
  ∧ runStarter "w".data "r".data [] false 0 ['0'] 0 "s".data "k".data
        "t".data (fun _ => true)
      = (true, [newSessionCmd (genSessionName "s".data "t".data)])) :=
  ⟨rfl,
    c10_zero_processes_noop "w".data "r".data [] false 0 ['0'] "s".data
      "k".data "t".data (fun _ => true) rfl⟩
